import Mathlib

/-
  Verification of the DNS Doctor worker core (src/worker/src/dns.ts and
  src/worker/src/diagnose.ts, constants from the worker's constants module).

  The TypeScript code is embedded shallowly:
  * JavaScript strings are Lean `String`s; the handful of string operations
    the code uses (`toLowerCase`, `startsWith`, `split(' ')`, `endsWith('.')`)
    are modelled as structural functions on the underlying `List Char` so
    that every definition evaluates inside the kernel.
  * JavaScript objects used as string-keyed maps (`AllDNSResults`,
    `propagation`) are association lists `List (String × _)`; JS `Set` is a
    duplicate-free list keeping first occurrences in insertion order.
  * The network (`fetch` inside `queryDNS`) is an oracle
    `Network : domain → recordType → resolverUrl → Option DNSResponse`;
    `none` stands for any transport failure the `try/catch` converts to
    `null` (network error, non-2xx status, unparsable body).
  * `async/await` fan-out joined by `Promise.all` is modelled by the
    corresponding pure `List.map`: every branch's result is independent of
    the others and all are present in the combined value.
-/

namespace DNSDoctor

/-! ## Character-list models of the JavaScript string operations -/

/-- Model of `s.toLowerCase()` on the character list of a string. -/
def lowerChars (l : List Char) : List Char := l.map Char.toLower

/-- Model of `a.startsWith(p)`: `isPrefixB p a` is true iff `p` is a prefix of `a`. -/
def isPrefixB : List Char → List Char → Bool
  | [], _ => true
  | _ :: _, [] => false
  | a :: xs, b :: ys => a == b && isPrefixB xs ys

/-- Model of `s.split(' ')` — split on every single space, no limit; `""` splits to
    `[""]`, exactly as in JavaScript. -/
def splitSp (l : List Char) : List (List Char) :=
  l.foldr (fun c acc =>
    match acc with
    | [] => [[]]
    | w :: ws => if c = ' ' then [] :: w :: ws else (c :: w) :: ws) [[]]

/-- JS `Set` built from a list: keep the first occurrence of each element,
    in insertion order (`size` = length, `has` = membership). -/
def dedupFirst {α : Type} [DecidableEq α] (l : List α) : List α :=
  l.foldl (fun acc x => if x ∈ acc then acc else acc ++ [x]) []

/-! ## Data model (src/worker/src/types.ts) -/

/-- types.ts `DNSRecord`. `TTL` is the DNS time-to-live, an unsigned
    32-bit count modelled as `Nat`. -/
structure DNSRecord where
  name : String
  type : Nat
  TTL : Nat
  data : String
deriving DecidableEq, Repr

/-- types.ts `DNSResponse` (the DoH JSON answer). -/
structure DNSResponse where
  Status : Nat
  TC : Bool
  RD : Bool
  RA : Bool
  AD : Bool
  CD : Bool
  Answer : Option (List DNSRecord)
  Authority : Option (List DNSRecord)
  Additional : Option (List DNSRecord)
deriving DecidableEq, Repr

/-- types.ts `ResolverResult`. -/
structure ResolverResult where
  resolver : String
  records : List DNSRecord
  hasError : Bool
  error : Option String
deriving DecidableEq, Repr

/-- types.ts `DNSQueryResult`; `propagation` is the string-keyed JS object
    as an association list. -/
structure DNSQueryResult where
  recordType : String
  primaryRecords : List DNSRecord
  propagation : List (String × ResolverResult)
deriving DecidableEq, Repr

/-- types.ts `AllDNSResults`: record-type name ↦ `DNSQueryResult`. -/
abbrev AllDNSResults := List (String × DNSQueryResult)

/-- JS property access `dnsResults[t]` on the map. -/
def lookupType (d : AllDNSResults) (t : String) : Option DNSQueryResult :=
  (d.find? (fun p => p.1 == t)).map (fun p => p.2)

inductive Severity where
  | error
  | warning
  | info
deriving DecidableEq, Repr

/-- The `details` payloads the diagnostic rules attach (typed `any` in
    types.ts; one constructor per distinct shape used in diagnose.ts). -/
inductive Details where
  | nsMismatch (primary : List String) (resolvers : List (String × List String))
  | cnameAtApex (cnameRecords : List DNSRecord)
  | missingAAAA (aRecords : Nat) (aaaaRecords : Nat)
  | spfRecord (record : String)
  | ttlDetail (recordType : String) (ttl : Nat) (recommended : String)
  | dnssecNote (note : String)
deriving DecidableEq, Repr

/-- types.ts `DiagnosticIssue`. -/
structure DiagnosticIssue where
  type : String
  severity : Severity
  message : String
  details : Option Details := none
deriving DecidableEq, Repr

structure Summary where
  errors : Nat
  warnings : Nat
  info : Nat
deriving DecidableEq, Repr

/-- types.ts `DiagnosticResult`. -/
structure DiagnosticResult where
  issues : List DiagnosticIssue
  summary : Summary
deriving DecidableEq, Repr

/-! ## Constants (worker constants module) -/

/-- Constant `DNS_RECORD_TYPES`: record-type name ↦ RFC 1035 type number.
    The source's falsy check on an absent key is `none` here. -/
def DNS_RECORD_TYPES : String → Option Nat
  | "A" => some 1
  | "AAAA" => some 28
  | "CNAME" => some 5
  | "MX" => some 15
  | "NS" => some 2
  | "TXT" => some 16
  | "SOA" => some 6
  | "CAA" => some 257
  | "RRSIG" => some 46
  | _ => none

def CLOUDFLARE_URL : String := "https://cloudflare-dns.com/dns-query"
def GOOGLE_URL : String := "https://dns.google/resolve"
def QUAD9_URL : String := "https://dns.quad9.net/dns-query"

/-- Constant `RESOLVERS` in `Object.entries` order: (name, DoH endpoint URL). -/
def RESOLVERS : List (String × String) :=
  [("CLOUDFLARE", CLOUDFLARE_URL), ("GOOGLE", GOOGLE_URL), ("QUAD9", QUAD9_URL)]

/-- Constant `QUERY_RECORD_TYPES`. -/
def QUERY_RECORD_TYPES : List String :=
  ["A", "AAAA", "CNAME", "MX", "NS", "TXT", "SOA", "CAA"]

def TTL_MIN_RECOMMENDED : Nat := 300
def TTL_MAX_RECOMMENDED : Nat := 86400

/-! ## DNS querying (src/worker/src/dns.ts) -/

/-- The network oracle: what `fetch` + JSON parsing yields for a given
    domain, record type and resolver URL; `none` is any transport failure. -/
abbrev Network := String → String → String → Option DNSResponse

/-- dns.ts `queryDNS`: an unsupported record type throws, the `catch`
    turns every failure into `null`; both resolver URL formats build the
    same GET query, so the oracle is consulted directly. -/
def queryDNS (net : Network) (domain recordType resolver : String) :
    Option DNSResponse :=
  match DNS_RECORD_TYPES recordType with
  | none => none
  | some _ => net domain recordType resolver

/-- dns.ts `queryAllRecords`: query every supported type from the primary
    resolver (Cloudflare); `response?.Answer || []` on failure or a missing
    answer section. -/
def queryAllRecords (net : Network) (domain : String) : AllDNSResults :=
  QUERY_RECORD_TYPES.map (fun recordType =>
    let response := queryDNS net domain recordType CLOUDFLARE_URL
    let records : List DNSRecord := ((response.map (fun r => r.Answer)).join).getD []
    (recordType, { recordType := recordType, primaryRecords := records, propagation := [] }))

/-- One branch of dns.ts `checkPropagation`'s fan-out: the entry written
    for resolver `nr = (name, resolverUrl)` — keyed by `resolverUrl`. -/
def propEntry (net : Network) (domain recordType : String) (nr : String × String) :
    String × ResolverResult :=
  match queryDNS net domain recordType nr.2 with
  | none => (nr.2, { resolver := nr.1, records := [], hasError := true, error := some "Query failed" })
  | some response =>
      (nr.2, { resolver := nr.1, records := response.Answer.getD [], hasError := false, error := none })

/-- dns.ts `checkPropagation`: one outcome per configured resolver. -/
def checkPropagation (net : Network) (domain recordType : String) :
    List (String × ResolverResult) :=
  RESOLVERS.map (propEntry net domain recordType)

/-- dns.ts `queryDNSWithPropagation`: propagation is filled in only for
    record types whose primary result is non-empty. -/
def queryDNSWithPropagation (net : Network) (domain : String) : AllDNSResults :=
  (queryAllRecords net domain).map (fun p =>
    if p.2.primaryRecords.length > 0 then
      (p.1, { p.2 with propagation := checkPropagation net domain p.1 })
    else p)

/-! ## Diagnostics (src/worker/src/diagnose.ts) -/

def QUALIFIERS : List Char := ['+', '-', '~', '?']

def SPF_MECHANISMS : List (List Char) :=
  ["all".data, "include".data, "a".data, "mx".data, "ptr".data, "ip4".data,
   "ip6".data, "exists".data, "redirect".data, "exp".data]

/-- Model of `.test` of the regex `^[+\-~?]?(all|include|a|mx|ptr|ip4|ip6|exists|redirect|exp)` with
    flag `i`: an optional leading qualifier, then one of the mechanism words,
    case-insensitively, with anything after.  Qualifiers and mechanism words
    start with disjoint characters, so stripping a leading qualifier first is
    exactly the regex's backtracking behaviour. -/
def validMechanismsTest (part : List Char) : Bool :=
  let stripped :=
    match part with
    | c :: rest => if QUALIFIERS.contains c then rest else part
    | [] => part
  SPF_MECHANISMS.any (fun m => isPrefixB m (lowerChars stripped))

/-- diagnose.ts `validateSPF`: requires the literal (case-sensitive) prefix
    `v=spf1`, then every space-separated token after the tag must be empty,
    the literal `all`, or pass the mechanism regex. -/
def validateSPF (spfRecord : String) : Bool :=
  if !(isPrefixB "v=spf1".data spfRecord.data) then false
  else
    let parts := (splitSp spfRecord.data).drop 1
    parts.all (fun part =>
      part == ([] : List Char) || part == "all".data || validMechanismsTest part)

/-- The lower-cased `data` fields of a record list as a JS `Set`
    (diagnose.ts builds this in `checkNSMismatch` for primary and for each
    propagation resolver). -/
def nsSetOf (records : List DNSRecord) : List (List Char) :=
  dedupFirst (records.map (fun r => lowerChars r.data.data))

/-- The test `nsSet.size !== primaryNS.size || ![...nsSet].every(ns => primaryNS.has(ns))`. -/
def nsSetsDiffer (primaryNS nsSet : List (List Char)) : Bool :=
  nsSet.length != primaryNS.length || !(nsSet.all (fun ns => primaryNS.contains ns))

/-- The `resolverNS` map `checkNSMismatch` accumulates: every propagation
    entry that is not failure-marked (`continue` on `hasError`), with its
    lower-cased record set. -/
def nsResolverSets (nsResults : DNSQueryResult) : List (String × List (List Char)) :=
  (nsResults.propagation.filter (fun p => !p.2.hasError)).map
    (fun p => (p.1, nsSetOf p.2.records))

/-- The `hasMismatch` flag of `checkNSMismatch`. -/
def nsHasMismatch (nsResults : DNSQueryResult) : Bool :=
  (nsResolverSets nsResults).any
    (fun p => nsSetsDiffer (nsSetOf nsResults.primaryRecords) p.2)

/-- diagnose.ts `checkNSMismatch`. -/
def checkNSMismatch (dnsResults : AllDNSResults) : List DiagnosticIssue :=
  match lookupType dnsResults "NS" with
  | none => []
  | some nsResults =>
    if nsResults.primaryRecords.length = 0 then []
    else
      let primaryNS := nsSetOf nsResults.primaryRecords
      if nsHasMismatch nsResults then
        [{ type := "ns_mismatch", severity := .error,
           message := "NS records differ across DNS resolvers",
           details := some (.nsMismatch (primaryNS.map String.mk)
             ((nsResolverSets nsResults).map (fun p => (p.1, p.2.map String.mk)))) }]
      else []

/-- diagnose.ts `checkCNAMEAtApex`. -/
def checkCNAMEAtApex (dnsResults : AllDNSResults) : List DiagnosticIssue :=
  match lookupType dnsResults "CNAME" with
  | none => []
  | some cnameResults =>
    if cnameResults.primaryRecords.length = 0 then []
    else
      let cnameAtApex := cnameResults.primaryRecords.any (fun record =>
        let name := lowerChars record.name.data
        name.getLast? == some '.' || name == "@".data)
      let aLen := ((lookupType dnsResults "A").map (fun r => r.primaryRecords.length)).getD 0
      let aaaaLen := ((lookupType dnsResults "AAAA").map (fun r => r.primaryRecords.length)).getD 0
      if cnameAtApex && (aLen > 0 || aaaaLen > 0) then
        [{ type := "cname_at_apex", severity := .error,
           message := "CNAME record found at apex (root domain) - RFC violation",
           details := some (.cnameAtApex cnameResults.primaryRecords) }]
      else []

/-- diagnose.ts `checkMissingAAAA`. -/
def checkMissingAAAA (dnsResults : AllDNSResults) : List DiagnosticIssue :=
  match lookupType dnsResults "A" with
  | none => []
  | some aResults =>
    if aResults.primaryRecords.length > 0 then
      let aaaaMissing :=
        match lookupType dnsResults "AAAA" with
        | none => true
        | some aaaaResults => aaaaResults.primaryRecords.length = 0
      if aaaaMissing then
        [{ type := "missing_aaaa", severity := .warning,
           message := "Domain has A records but no AAAA records - not IPv6 ready",
           details := some (.missingAAAA aResults.primaryRecords.length 0) }]
      else []
    else []

/-- Flag `hasMX` of diagnose.ts `checkEmailSetup` (`undefined` is falsy). -/
def hasMX (dnsResults : AllDNSResults) : Bool :=
  match lookupType dnsResults "MX" with
  | some r => r.primaryRecords.length > 0
  | none => false

/-- Flag `hasTXT` of diagnose.ts `checkEmailSetup`. -/
def hasTXT (dnsResults : AllDNSResults) : Bool :=
  match lookupType dnsResults "TXT" with
  | some r => r.primaryRecords.length > 0
  | none => false

/-- Flag `hasSPF`: some TXT record's payload lower-cases to a `v=spf1`-prefixed
    string (`txtResults?.primaryRecords.some(...)`, `undefined` falsy). -/
def hasSPF (dnsResults : AllDNSResults) : Bool :=
  match lookupType dnsResults "TXT" with
  | some r => r.primaryRecords.any (fun rec => isPrefixB "v=spf1".data (lowerChars rec.data.data))
  | none => false

/-- Flag `hasDMARC`: some TXT record's payload lower-cases to a `v=dmarc1`-prefixed string. -/
def hasDMARC (dnsResults : AllDNSResults) : Bool :=
  match lookupType dnsResults "TXT" with
  | some r => r.primaryRecords.any (fun rec => isPrefixB "v=dmarc1".data (lowerChars rec.data.data))
  | none => false

/-- diagnose.ts `checkEmailSetup`. -/
def checkEmailSetup (dnsResults : AllDNSResults) : List DiagnosticIssue :=
  if !hasMX dnsResults && !hasTXT dnsResults then
    [{ type := "missing_email_setup", severity := .info,
       message := "No MX or TXT records found - domain may not be configured for email" }]
  else
    (if hasMX dnsResults && !hasSPF dnsResults then
      [{ type := "missing_spf", severity := .warning,
         message := "MX records present but no SPF record found" }]
    else []) ++
    (if hasMX dnsResults && !hasDMARC dnsResults then
      [{ type := "missing_dmarc", severity := .info,
         message := "MX records present but no DMARC record found" }]
    else [])

/-- diagnose.ts `checkSPFSyntax` (the rule validating SPF TXT records):
    records are selected by a case-insensitive `v=spf1` filter, and every
    selected record failing `validateSPF` contributes exactly one error
    issue carrying the raw record text. -/
def checkSPFFormat (dnsResults : AllDNSResults) : List DiagnosticIssue :=
  match lookupType dnsResults "TXT" with
  | none => []
  | some txtResults =>
    if txtResults.primaryRecords.length = 0 then []
    else
      let spfRecords := txtResults.primaryRecords.filter
        (fun r => isPrefixB "v=spf1".data (lowerChars r.data.data))
      spfRecords.flatMap (fun record =>
        if !validateSPF record.data then
          [{ type := "spf_syntax_error", severity := .error,
             message := "SPF record has syntax errors",
             details := some (.spfRecord record.data) }]
        else [])

/-- The issues diagnose.ts `checkTTL` pushes for one record of one type. -/
def ttlIssuesForRecord (recordType : String) (record : DNSRecord) : List DiagnosticIssue :=
  let ttl := record.TTL
  if ttl < TTL_MIN_RECOMMENDED then
    [{ type := "ttl_too_low", severity := .warning,
       message := s!"TTL too low ({ttl}s) for {recordType} record - may cause excessive DNS queries",
       details := some (.ttlDetail recordType ttl s!">= {TTL_MIN_RECOMMENDED}s") }]
  else if ttl > TTL_MAX_RECOMMENDED then
    [{ type := "ttl_too_high", severity := .info,
       message := s!"TTL very high ({ttl}s) for {recordType} record - changes will take longer to propagate",
       details := some (.ttlDetail recordType ttl s!"<= {TTL_MAX_RECOMMENDED}s") }]
  else []

/-- diagnose.ts `checkTTL`: the only rule iterating per record. -/
def checkTTL (dnsResults : AllDNSResults) : List DiagnosticIssue :=
  dnsResults.flatMap (fun p => p.2.primaryRecords.flatMap (ttlIssuesForRecord p.1))

/-- diagnose.ts `checkDNSSEC`: unconditionally pushes the placeholder info
    issue (async in the source but performs no IO). -/
def checkDNSSEC (dnsResults : AllDNSResults) (domain : String) : List DiagnosticIssue :=
  [{ type := "dnssec_check", severity := .info,
     message := "DNSSEC status check requires explicit RRSIG query - not fully implemented",
     details := some (.dnssecNote "DNSSEC validation typically requires specialized queries") }]

/-- diagnose.ts `analyzeDNS`: run every rule in order, then count issues by
    severity. -/
def analyzeDNS (dnsResults : AllDNSResults) (domain : String) : DiagnosticResult :=
  let issues :=
    checkNSMismatch dnsResults ++ checkCNAMEAtApex dnsResults ++
    checkMissingAAAA dnsResults ++ checkEmailSetup dnsResults ++
    checkSPFFormat dnsResults ++ checkTTL dnsResults ++
    checkDNSSEC dnsResults domain
  { issues := issues,
    summary :=
      { errors := (issues.filter (fun i => i.severity == Severity.error)).length,
        warnings := (issues.filter (fun i => i.severity == Severity.warning)).length,
        info := (issues.filter (fun i => i.severity == Severity.info)).length } }

/-! ## Concrete fixtures for the verification scenarios -/

/-- An NS record for `example.com` pointing at nameserver `n`. -/
def nsRec (n : String) : DNSRecord :=
  { name := "example.com", type := 2, TTL := 3600, data := n }

/-- A TXT record for `example.com` with payload `t`. -/
def txtRec (t : String) : DNSRecord :=
  { name := "example.com", type := 16, TTL := 3600, data := t }

/-- NS result: primary resolver sees ns1/ns2, Google sees only ns3. -/
def nsQR6 : DNSQueryResult :=
  { recordType := "NS",
    primaryRecords := [nsRec "ns1.example.com", nsRec "ns2.example.com"],
    propagation := [(GOOGLE_URL,
      { resolver := "GOOGLE", records := [nsRec "ns3.example.com"],
        hasError := false, error := none })] }

def d6 : AllDNSResults := [("NS", nsQR6)]

/-- TXT result with one well-formed and one malformed SPF record. -/
def d8 : AllDNSResults :=
  [("TXT", { recordType := "TXT",
             primaryRecords := [txtRec "v=spf1 include:_spf.example.com -all",
                                txtRec "v=spf1 frobnicate"],
             propagation := [] })]

/-- TXT result whose SPF record carries an upper-case version tag but
    otherwise valid mechanisms. -/
def d9 : AllDNSResults :=
  [("TXT", { recordType := "TXT",
             primaryRecords := [txtRec "V=spf1 include:_spf.example.com -all"],
             propagation := [] })]

/-- NS result whose only propagation outcome is failure-marked and reports
    a divergent nameserver. -/
def nsQR10 : DNSQueryResult :=
  { recordType := "NS", primaryRecords := [nsRec "ns1.example.com"],
    propagation := [(GOOGLE_URL,
      { resolver := "GOOGLE", records := [nsRec "ns3.example.com"],
        hasError := true, error := some "Query failed" })] }

/-- The same NS result with the failure-marked outcome removed. -/
def nsQR10b : DNSQueryResult :=
  { recordType := "NS", primaryRecords := [nsRec "ns1.example.com"],
    propagation := [] }

def d10 : AllDNSResults := [("NS", nsQR10)]

def d10b : AllDNSResults := [("NS", nsQR10b)]

/-- The slice `issues.filter` restricted to one issue type. -/
def filterType (issues : List DiagnosticIssue) (T : String) : List DiagnosticIssue :=
  issues.filter (fun i => i.type == T)

/-! ## Shared lemmas -/

/-- Each issue has exactly one of the three severities, so the three
    severity filters partition the issue list. -/
theorem severity_filter_partition (issues : List DiagnosticIssue) :
    (issues.filter (fun i => i.severity == Severity.error)).length +
    (issues.filter (fun i => i.severity == Severity.warning)).length +
    (issues.filter (fun i => i.severity == Severity.info)).length = issues.length := by
  induction issues with
  | nil => rfl
  | cons i rest ih =>
    rcases h : i.severity <;> simp [List.filter_cons, h] <;> omega

/-- The key of a propagation entry is the resolver's URL. -/
theorem propEntry_fst (net : Network) (domain recordType : String) (nr : String × String) :
    (propEntry net domain recordType nr).1 = nr.2 := by
  unfold propEntry
  cases queryDNS net domain recordType nr.2 <;> rfl

/-- The `resolver` field of a propagation outcome is the resolver's name. -/
theorem propEntry_resolver (net : Network) (domain recordType : String) (nr : String × String) :
    (propEntry net domain recordType nr).2.resolver = nr.1 := by
  unfold propEntry
  cases queryDNS net domain recordType nr.2 <;> rfl

/-- A resolver's propagation entry depends on the network only through the
    query sent to that very resolver. -/
theorem propEntry_congr (net net2 : Network) (domain recordType : String)
    (nr : String × String)
    (h : queryDNS net domain recordType nr.2 = queryDNS net2 domain recordType nr.2) :
    propEntry net domain recordType nr = propEntry net2 domain recordType nr := by
  unfold propEntry
  rw [h]

/-- Entries produced by `queryAllRecords` carry an empty propagation map. -/
theorem queryAllRecords_propagation_empty (net : Network) (domain : String) :
    ∀ p ∈ queryAllRecords net domain, p.2.propagation = [] := by
  intro p hp
  simp only [queryAllRecords, List.mem_map] at hp
  obtain ⟨rt, _, rfl⟩ := hp
  rfl

/-- Membership in the JS-`Set` fold: an element is in the accumulated set
    iff it was in the accumulator or in the remaining input. -/
theorem foldl_dedup_mem {α : Type} [DecidableEq α] (l : List α) (acc : List α) (y : α) :
    (y ∈ l.foldl (fun acc x => if x ∈ acc then acc else acc ++ [x]) acc) ↔
      y ∈ acc ∨ y ∈ l := by
  induction l generalizing acc with
  | nil => simp
  | cons x xs ih =>
    simp only [List.foldl_cons]
    rw [ih]
    split_ifs with hx
    · simp only [List.mem_cons]
      constructor
      · rintro (h | h)
        · exact Or.inl h
        · exact Or.inr (Or.inr h)
      · rintro (h | rfl | h)
        · exact Or.inl h
        · exact Or.inl hx
        · exact Or.inr h
    · simp only [List.mem_append, List.mem_singleton, List.mem_cons]
      tauto

theorem mem_dedupFirst {α : Type} [DecidableEq α] (l : List α) (y : α) :
    y ∈ dedupFirst l ↔ y ∈ l := by
  unfold dedupFirst
  rw [foldl_dedup_mem]
  simp

theorem foldl_dedup_nodup {α : Type} [DecidableEq α] (l : List α) (acc : List α)
    (h : acc.Nodup) :
    (l.foldl (fun acc x => if x ∈ acc then acc else acc ++ [x]) acc).Nodup := by
  induction l generalizing acc with
  | nil => simpa
  | cons x xs ih =>
    simp only [List.foldl_cons]
    apply ih
    split_ifs with hx
    · exact h
    · exact List.nodup_append.mpr
        ⟨h, List.nodup_singleton x,
         fun a ha hb => hx (by rwa [List.mem_singleton.mp hb] at ha)⟩

theorem dedupFirst_nodup {α : Type} [DecidableEq α] (l : List α) :
    (dedupFirst l).Nodup :=
  foldl_dedup_nodup l [] List.nodup_nil

/-- On duplicate-free lists, `checkNSMismatch`'s size-and-membership test is
    exactly set equality: it is `false` iff the two lists have the same
    members. -/
theorem nsSetsDiffer_false_iff (a b : List (List Char)) (ha : a.Nodup) (hb : b.Nodup) :
    nsSetsDiffer a b = false ↔ (∀ x, x ∈ b ↔ x ∈ a) := by
  have hbase : nsSetsDiffer a b = false ↔ (b.length = a.length ∧ ∀ x ∈ b, x ∈ a) := by
    simp [nsSetsDiffer]
  rw [hbase]
  constructor
  · rintro ⟨hlen, hsub⟩ x
    have hsub' : b.toFinset ⊆ a.toFinset := by
      intro z hz
      rw [List.mem_toFinset] at hz ⊢
      simpa using hsub z hz
    have hcard : a.toFinset.card ≤ b.toFinset.card := by
      rw [List.toFinset_card_of_nodup ha, List.toFinset_card_of_nodup hb, hlen]
    have heq : b.toFinset = a.toFinset := Finset.eq_of_subset_of_card_le hsub' hcard
    constructor
    · intro hxb
      have : x ∈ b.toFinset := List.mem_toFinset.mpr hxb
      rw [heq] at this
      exact List.mem_toFinset.mp this
    · intro hxa
      have : x ∈ a.toFinset := List.mem_toFinset.mpr hxa
      rw [← heq] at this
      exact List.mem_toFinset.mp this
  · intro hmem
    have heq : b.toFinset = a.toFinset := by
      ext z
      rw [List.mem_toFinset, List.mem_toFinset]
      exact hmem z
    refine ⟨?_, fun x hx => by simpa using (hmem x).mp hx⟩
    rw [← List.toFinset_card_of_nodup ha, ← List.toFinset_card_of_nodup hb, heq]

/-- The `hasMismatch` test on two lower-cased record sets is `true` exactly
    when the lower-cased payload membership differs — order and duplicates
    never trigger it. -/
theorem nsSetOf_differs_iff (prim others : List DNSRecord) :
    nsSetsDiffer (nsSetOf prim) (nsSetOf others) = true ↔
      ¬ (∀ x, x ∈ others.map (fun r => lowerChars r.data.data) ↔
              x ∈ prim.map (fun r => lowerChars r.data.data)) := by
  rw [← Bool.not_eq_false]
  rw [not_iff_not.mpr
    (nsSetsDiffer_false_iff (nsSetOf prim) (nsSetOf others)
      (dedupFirst_nodup _) (dedupFirst_nodup _))]
  constructor
  · intro h hmem
    exact h (fun x => by
      rw [nsSetOf, nsSetOf, mem_dedupFirst, mem_dedupFirst]
      exact hmem x)
  · intro h hmem
    exact h (fun x => by
      have := hmem x
      rwa [nsSetOf, nsSetOf, mem_dedupFirst, mem_dedupFirst] at this)

/-! ### Issue types produced by each rule -/

theorem checkNSMismatch_types (d : AllDNSResults) :
    ∀ i ∈ checkNSMismatch d, i.type = "ns_mismatch" ∧ i.severity = Severity.error := by
  intro i hi
  unfold checkNSMismatch at hi
  split at hi
  · simp at hi
  · simp at hi
    obtain ⟨-, -, rfl⟩ := hi
    exact ⟨rfl, rfl⟩

theorem checkCNAMEAtApex_types (d : AllDNSResults) :
    ∀ i ∈ checkCNAMEAtApex d, i.type = "cname_at_apex" ∧ i.severity = Severity.error := by
  intro i hi
  unfold checkCNAMEAtApex at hi
  split at hi
  · simp at hi
  · simp at hi
    obtain ⟨-, -, rfl⟩ := hi
    exact ⟨rfl, rfl⟩

theorem checkMissingAAAA_types (d : AllDNSResults) :
    ∀ i ∈ checkMissingAAAA d, i.type = "missing_aaaa" ∧ i.severity = Severity.warning := by
  intro i hi
  unfold checkMissingAAAA at hi
  split at hi
  · simp at hi
  · simp at hi
    obtain ⟨-, -, rfl⟩ := hi
    exact ⟨rfl, rfl⟩

theorem checkEmailSetup_types (d : AllDNSResults) :
    ∀ i ∈ checkEmailSetup d,
      (i.type = "missing_email_setup" ∧ i.severity = Severity.info) ∨
      (i.type = "missing_spf" ∧ i.severity = Severity.warning) ∨
      (i.type = "missing_dmarc" ∧ i.severity = Severity.info) := by
  intro i hi
  unfold checkEmailSetup at hi
  split at hi
  · rw [List.mem_singleton] at hi
    subst hi
    exact Or.inl ⟨rfl, rfl⟩
  · rw [List.mem_append] at hi
    rcases hi with hi | hi <;> split at hi
    · rw [List.mem_singleton] at hi
      subst hi
      exact Or.inr (Or.inl ⟨rfl, rfl⟩)
    · exact absurd hi (List.not_mem_nil i)
    · rw [List.mem_singleton] at hi
      subst hi
      exact Or.inr (Or.inr ⟨rfl, rfl⟩)
    · exact absurd hi (List.not_mem_nil i)

theorem checkSPFFormat_types (d : AllDNSResults) :
    ∀ i ∈ checkSPFFormat d, i.type = "spf_syntax_error" ∧ i.severity = Severity.error := by
  intro i hi
  unfold checkSPFFormat at hi
  split at hi
  · simp at hi
  · split at hi
    · simp at hi
    · simp only [List.mem_flatMap] at hi
      obtain ⟨r, _, hr⟩ := hi
      split at hr
      · rw [List.mem_singleton] at hr
        subst hr
        exact ⟨rfl, rfl⟩
      · simp at hr

theorem ttlIssuesForRecord_types (rt : String) (r : DNSRecord) :
    ∀ i ∈ ttlIssuesForRecord rt r,
      (i.type = "ttl_too_low" ∧ i.severity = Severity.warning) ∨
      (i.type = "ttl_too_high" ∧ i.severity = Severity.info) := by
  intro i hi
  unfold ttlIssuesForRecord at hi
  dsimp only at hi
  split at hi
  · rw [List.mem_singleton] at hi
    subst hi
    exact Or.inl ⟨rfl, rfl⟩
  · split at hi
    · rw [List.mem_singleton] at hi
      subst hi
      exact Or.inr ⟨rfl, rfl⟩
    · simp at hi

theorem checkTTL_types (d : AllDNSResults) :
    ∀ i ∈ checkTTL d,
      (i.type = "ttl_too_low" ∧ i.severity = Severity.warning) ∨
      (i.type = "ttl_too_high" ∧ i.severity = Severity.info) := by
  intro i hi
  simp only [checkTTL, List.mem_flatMap] at hi
  obtain ⟨p, _, hp⟩ := hi
  obtain ⟨r, _, hr⟩ := hp
  exact ttlIssuesForRecord_types p.1 r i hr

theorem checkDNSSEC_types (d : AllDNSResults) (domain : String) :
    ∀ i ∈ checkDNSSEC d domain, i.type = "dnssec_check" ∧ i.severity = Severity.info := by
  intro i hi
  rw [checkDNSSEC, List.mem_singleton] at hi
  subst hi
  exact ⟨rfl, rfl⟩

/-! ### Filtering the combined issue list by type -/

theorem analyze_issues_eq (d : AllDNSResults) (domain : String) :
    (analyzeDNS d domain).issues =
      checkNSMismatch d ++ checkCNAMEAtApex d ++ checkMissingAAAA d ++
      checkEmailSetup d ++ checkSPFFormat d ++ checkTTL d ++
      checkDNSSEC d domain := rfl

theorem filterType_append (l1 l2 : List DiagnosticIssue) (T : String) :
    filterType (l1 ++ l2) T = filterType l1 T ++ filterType l2 T :=
  List.filter_append l1 l2

theorem filterType_nil_of (l : List DiagnosticIssue) (T : String)
    (h : ∀ i ∈ l, i.type ≠ T) : filterType l T = [] := by
  rw [filterType, List.filter_eq_nil_iff]
  intro i hi
  simp only [beq_iff_eq]
  exact h i hi

theorem filterType_self (l : List DiagnosticIssue) (T : String)
    (h : ∀ i ∈ l, i.type = T) : filterType l T = l := by
  rw [filterType, List.filter_eq_self]
  intro i hi
  simp only [beq_iff_eq]
  exact h i hi

theorem filterType_checkNSMismatch (d : AllDNSResults) (T : String)
    (h : ¬ T = "ns_mismatch") : filterType (checkNSMismatch d) T = [] :=
  filterType_nil_of _ _ (fun i hi => by
    rw [(checkNSMismatch_types d i hi).1]
    exact fun he => h he.symm)

theorem filterType_checkCNAMEAtApex (d : AllDNSResults) (T : String)
    (h : ¬ T = "cname_at_apex") : filterType (checkCNAMEAtApex d) T = [] :=
  filterType_nil_of _ _ (fun i hi => by
    rw [(checkCNAMEAtApex_types d i hi).1]
    exact fun he => h he.symm)

theorem filterType_checkMissingAAAA (d : AllDNSResults) (T : String)
    (h : ¬ T = "missing_aaaa") : filterType (checkMissingAAAA d) T = [] :=
  filterType_nil_of _ _ (fun i hi => by
    rw [(checkMissingAAAA_types d i hi).1]
    exact fun he => h he.symm)

theorem filterType_checkEmailSetup_ne (d : AllDNSResults) (T : String)
    (h1 : ¬ T = "missing_email_setup") (h2 : ¬ T = "missing_spf")
    (h3 : ¬ T = "missing_dmarc") : filterType (checkEmailSetup d) T = [] :=
  filterType_nil_of _ _ (fun i hi => by
    rcases checkEmailSetup_types d i hi with ⟨ht, _⟩ | ⟨ht, _⟩ | ⟨ht, _⟩ <;>
      rw [ht]
    · exact fun he => h1 he.symm
    · exact fun he => h2 he.symm
    · exact fun he => h3 he.symm)

theorem filterType_checkSPFFormat_ne (d : AllDNSResults) (T : String)
    (h : ¬ T = "spf_syntax_error") : filterType (checkSPFFormat d) T = [] :=
  filterType_nil_of _ _ (fun i hi => by
    rw [(checkSPFFormat_types d i hi).1]
    exact fun he => h he.symm)

theorem filterType_checkTTL_ne (d : AllDNSResults) (T : String)
    (h1 : ¬ T = "ttl_too_low") (h2 : ¬ T = "ttl_too_high") :
    filterType (checkTTL d) T = [] :=
  filterType_nil_of _ _ (fun i hi => by
    rcases checkTTL_types d i hi with ⟨ht, _⟩ | ⟨ht, _⟩ <;> rw [ht]
    · exact fun he => h1 he.symm
    · exact fun he => h2 he.symm)

theorem filterType_checkDNSSEC_ne (d : AllDNSResults) (domain : String) (T : String)
    (h : ¬ T = "dnssec_check") : filterType (checkDNSSEC d domain) T = [] :=
  filterType_nil_of _ _ (fun i hi => by
    rw [(checkDNSSEC_types d domain i hi).1]
    exact fun he => h he.symm)

/-- Only the NS-consistency rule contributes `ns_mismatch` issues. -/
theorem analyze_filterType_ns (d : AllDNSResults) (domain : String) :
    filterType (analyzeDNS d domain).issues "ns_mismatch" = checkNSMismatch d := by
  rw [analyze_issues_eq]
  repeat rw [filterType_append]
  rw [filterType_checkCNAMEAtApex _ _ (by decide),
      filterType_checkMissingAAAA _ _ (by decide),
      filterType_checkEmailSetup_ne _ _ (by decide) (by decide) (by decide),
      filterType_checkSPFFormat_ne _ _ (by decide),
      filterType_checkTTL_ne _ _ (by decide) (by decide),
      filterType_checkDNSSEC_ne _ _ _ (by decide),
      filterType_self (checkNSMismatch d) _
        (fun i hi => (checkNSMismatch_types d i hi).1)]
  simp

/-- Only the SPF-validation rule contributes `spf_syntax_error` issues. -/
theorem analyze_filterType_spf (d : AllDNSResults) (domain : String) :
    filterType (analyzeDNS d domain).issues "spf_syntax_error" = checkSPFFormat d := by
  rw [analyze_issues_eq]
  repeat rw [filterType_append]
  rw [filterType_checkNSMismatch _ _ (by decide),
      filterType_checkCNAMEAtApex _ _ (by decide),
      filterType_checkMissingAAAA _ _ (by decide),
      filterType_checkEmailSetup_ne _ _ (by decide) (by decide) (by decide),
      filterType_checkTTL_ne _ _ (by decide) (by decide),
      filterType_checkDNSSEC_ne _ _ _ (by decide),
      filterType_self (checkSPFFormat d) _
        (fun i hi => (checkSPFFormat_types d i hi).1)]
  simp

/-- Only the email-setup rule contributes its three issue types. -/
theorem analyze_filterType_email (d : AllDNSResults) (domain : String) (T : String)
    (hT : T = "missing_email_setup" ∨ T = "missing_spf" ∨ T = "missing_dmarc") :
    filterType (analyzeDNS d domain).issues T = filterType (checkEmailSetup d) T := by
  have h1 : ¬ T = "ns_mismatch" := by rcases hT with rfl | rfl | rfl <;> decide
  have h2 : ¬ T = "cname_at_apex" := by rcases hT with rfl | rfl | rfl <;> decide
  have h3 : ¬ T = "missing_aaaa" := by rcases hT with rfl | rfl | rfl <;> decide
  have h4 : ¬ T = "spf_syntax_error" := by rcases hT with rfl | rfl | rfl <;> decide
  have h5 : ¬ T = "ttl_too_low" := by rcases hT with rfl | rfl | rfl <;> decide
  have h6 : ¬ T = "ttl_too_high" := by rcases hT with rfl | rfl | rfl <;> decide
  have h7 : ¬ T = "dnssec_check" := by rcases hT with rfl | rfl | rfl <;> decide
  rw [analyze_issues_eq]
  repeat rw [filterType_append]
  rw [filterType_checkNSMismatch _ _ h1,
      filterType_checkCNAMEAtApex _ _ h2,
      filterType_checkMissingAAAA _ _ h3,
      filterType_checkSPFFormat_ne _ _ h4,
      filterType_checkTTL_ne _ _ h5 h6,
      filterType_checkDNSSEC_ne _ _ _ h7]
  simp

/-- A filtered `flatMap` emitting a singleton per failing element is a
    `map` over the conjunctively filtered list. -/
theorem flatMap_if_singleton {α β : Type} (l : List α) (p q : α → Bool) (f : α → β) :
    (l.filter p).flatMap (fun x => if q x then [f x] else []) =
      (l.filter (fun x => p x && q x)).map f := by
  induction l with
  | nil => rfl
  | cons x xs ih =>
    by_cases hp : p x <;> by_cases hq : q x <;>
      simp [List.filter_cons, hp, hq, ih]

/-! ## Claims -/

/-- C1: for every `DomainResultSet` input, the report produced by
    `analyzeDNS` satisfies
    `summary.errors + summary.warnings + summary.info = issues.length`,
    each summary field counting exactly the issues of that severity. -/
theorem analyzeDNS_summary_invariant (dnsResults : AllDNSResults) (domain : String) :
    (analyzeDNS dnsResults domain).summary.errors +
    (analyzeDNS dnsResults domain).summary.warnings +
    (analyzeDNS dnsResults domain).summary.info =
    (analyzeDNS dnsResults domain).issues.length := by
  simp only [analyzeDNS]
  exact severity_filter_partition _

/-- C2: `queryAllRecords` returns exactly one entry per supported record
    type (the eight `QUERY_RECORD_TYPES`, no duplicates), however many
    resolver queries fail; a type whose query fails yields an entry with an
    empty `primaryRecords` list, not a missing entry. -/
theorem queryAllRecords_one_entry_per_type (net : Network) (domain : String) :
    ((queryAllRecords net domain).map Prod.fst = QUERY_RECORD_TYPES) ∧
    ((queryAllRecords net domain).map Prod.fst).Nodup ∧
    (∀ p ∈ queryAllRecords net domain,
       queryDNS net domain p.1 CLOUDFLARE_URL = none → p.2.primaryRecords = []) := by
  refine ⟨?keys, ?nodup, ?fail⟩
  case keys => simp [queryAllRecords, Function.comp_def]
  case nodup =>
    have h : (queryAllRecords net domain).map Prod.fst = QUERY_RECORD_TYPES := by
      simp [queryAllRecords, Function.comp_def]
    rw [h]
    decide
  case fail =>
    intro p hp hq
    simp only [queryAllRecords, List.mem_map] at hp
    obtain ⟨rt, _, rfl⟩ := hp
    simp only at hq
    simp [hq]

/-- C2 witness: with a network on which every query fails, the `"A"` entry
    is still present, with an empty record list. -/
theorem queryAllRecords_one_entry_per_type_witness :
    (("A", ({ recordType := "A", primaryRecords := [], propagation := [] } : DNSQueryResult)) ∈
       queryAllRecords (fun _ _ _ => none) "example.com") ∧
    (queryDNS (fun _ _ _ => none) "example.com" "A" CLOUDFLARE_URL = none) ∧
    (({ recordType := "A", primaryRecords := [], propagation := [] } : DNSQueryResult).primaryRecords = []) :=
  ⟨by decide, by decide,
   (queryAllRecords_one_entry_per_type (fun _ _ _ => none) "example.com").2.2
     ("A", { recordType := "A", primaryRecords := [], propagation := [] })
     (by decide) (by decide)⟩

/-- C3: in the full pipeline `queryDNSWithPropagation`, a record type's
    propagation map is filled in only when its `primaryRecords` is
    non-empty; a type with zero primary records keeps an empty propagation
    map. -/
theorem queryDNSWithPropagation_gating (net : Network) (domain : String) :
    ∀ p ∈ queryDNSWithPropagation net domain,
      (p.2.primaryRecords = [] → p.2.propagation = []) ∧
      (p.2.primaryRecords ≠ [] → p.2.propagation = checkPropagation net domain p.1) := by
  intro p hp
  simp only [queryDNSWithPropagation, List.mem_map] at hp
  obtain ⟨q, hq, hpq⟩ := hp
  by_cases hlen : q.2.primaryRecords.length > 0
  · rw [if_pos hlen] at hpq
    subst hpq
    constructor
    · intro hempty
      simp only at hempty
      rw [hempty] at hlen
      simp at hlen
    · intro _
      rfl
  · rw [if_neg hlen] at hpq
    subst hpq
    have hempty : q.2.primaryRecords = [] := by
      simpa using List.length_eq_zero.mp (Nat.eq_zero_of_not_pos hlen)
    constructor
    · intro _
      exact queryAllRecords_propagation_empty net domain q hq
    · intro hne
      exact absurd hempty hne

/-- C3 witness: with a network on which every query fails, the `"A"` entry
    of the full pipeline has no primary records and an empty propagation
    map. -/
theorem queryDNSWithPropagation_gating_witness :
    (("A", ({ recordType := "A", primaryRecords := [], propagation := [] } : DNSQueryResult)) ∈
       queryDNSWithPropagation (fun _ _ _ => none) "example.com") ∧
    (({ recordType := "A", primaryRecords := [], propagation := [] } : DNSQueryResult).propagation = []) :=
  ⟨by decide,
   (queryDNSWithPropagation_gating (fun _ _ _ => none) "example.com"
     ("A", { recordType := "A", primaryRecords := [], propagation := [] })
     (by decide)).1 (by decide)⟩

/-- C4: `checkPropagation` yields one outcome per configured resolver
    (keys in `RESOLVERS` order); a resolver whose query fails gets a
    failure-marked outcome (`hasError`, human-readable `error`) instead of
    an exception; and a resolver's stored outcome depends only on that
    resolver's own query, so one resolver's failure cannot change
    another's outcome or prevent the map from being returned. -/
theorem checkPropagation_isolated_outcomes (net net2 : Network) (domain recordType : String) :
    ((checkPropagation net domain recordType).map Prod.fst = RESOLVERS.map Prod.snd) ∧
    (∀ nr ∈ RESOLVERS, queryDNS net domain recordType nr.2 = none →
       (nr.2, ({ resolver := nr.1, records := [], hasError := true,
                 error := some "Query failed" } : ResolverResult)) ∈
         checkPropagation net domain recordType) ∧
    (∀ nr ∈ RESOLVERS,
       queryDNS net domain recordType nr.2 = queryDNS net2 domain recordType nr.2 →
       (checkPropagation net domain recordType).find? (fun p => p.1 == nr.2) =
       (checkPropagation net2 domain recordType).find? (fun p => p.1 == nr.2)) := by
  refine ⟨?keys, ?fail, ?isolated⟩
  case keys => simp [checkPropagation, RESOLVERS, propEntry_fst]
  case fail =>
    intro nr hnr hq
    refine List.mem_map.mpr ⟨nr, hnr, ?_⟩
    unfold propEntry
    rw [hq]
  case isolated =>
    intro nr hnr heq
    have hcongr := propEntry_congr net net2 domain recordType nr heq
    have h12 : (CLOUDFLARE_URL == GOOGLE_URL) = false := by decide
    have h13 : (CLOUDFLARE_URL == QUAD9_URL) = false := by decide
    have h23 : (GOOGLE_URL == QUAD9_URL) = false := by decide
    simp only [RESOLVERS, List.mem_cons, List.not_mem_nil, or_false] at hnr
    rcases hnr with rfl | rfl | rfl <;>
      simp [checkPropagation, RESOLVERS, List.find?, propEntry_fst, hcongr,
            h12, h13, h23]

/-- C4 witness: two networks agreeing on Cloudflare's query (both fail
    there) give Cloudflare the same failure-marked outcome even though the
    second network answers Google's query. -/
theorem checkPropagation_isolated_outcomes_witness :
    (("CLOUDFLARE", CLOUDFLARE_URL) ∈ RESOLVERS) ∧
    (queryDNS (fun _ _ _ => none) "example.com" "A" CLOUDFLARE_URL = none) ∧
    ((CLOUDFLARE_URL, ({ resolver := "CLOUDFLARE", records := [], hasError := true,
                         error := some "Query failed" } : ResolverResult)) ∈
       checkPropagation (fun _ _ _ => none) "example.com" "A") :=
  ⟨by decide, by decide,
   (checkPropagation_isolated_outcomes (fun _ _ _ => none) (fun _ _ _ => none)
       "example.com" "A").2.1
     ("CLOUDFLARE", CLOUDFLARE_URL) (by decide) (by decide)⟩

/-- C5 counterexample: on a concrete run the propagation map's keys are the
    raw DoH endpoint URLs, not the stable resolver names
    CLOUDFLARE/GOOGLE/QUAD9. -/
theorem checkPropagation_keys_counterexample :
    ((checkPropagation (fun _ _ _ => none) "example.com" "A").map Prod.fst =
      ["https://cloudflare-dns.com/dns-query", "https://dns.google/resolve",
       "https://dns.quad9.net/dns-query"]) ∧
    ¬ ((checkPropagation (fun _ _ _ => none) "example.com" "A").map Prod.fst =
      ["CLOUDFLARE", "GOOGLE", "QUAD9"]) := by
  constructor <;> decide

/-- C5 (amended): the propagation map's keys are the raw resolver endpoint
    URLs, one per configured resolver; the stable resolver name is carried
    in each outcome's `resolver` field, not used as the key. -/
theorem checkPropagation_keys_are_urls (net : Network) (domain recordType : String) :
    ((checkPropagation net domain recordType).map Prod.fst = RESOLVERS.map Prod.snd) ∧
    ((checkPropagation net domain recordType).map (fun p => p.2.resolver) =
       RESOLVERS.map Prod.fst) := by
  constructor <;> simp [checkPropagation, RESOLVERS, propEntry_fst, propEntry_resolver]

/-- C6: whenever at least one non-failed propagation resolver's lower-cased
    NS set differs in membership from the primary resolver's, `analyzeDNS`
    emits exactly one `ns_mismatch` issue, with severity error, carrying
    the primary set and all per-resolver NS sets as detail; and the
    triggering test is genuine membership inequality, insensitive to order
    and duplicates. -/
theorem ns_mismatch_single_issue (d : AllDNSResults) (domain : String)
    (nsR : DNSQueryResult) (hNS : lookupType d "NS" = some nsR)
    (hprim : nsR.primaryRecords ≠ [])
    (hdiv : nsHasMismatch nsR = true) :
    (filterType (analyzeDNS d domain).issues "ns_mismatch" =
      [{ type := "ns_mismatch", severity := Severity.error,
         message := "NS records differ across DNS resolvers",
         details := some (Details.nsMismatch
           ((nsSetOf nsR.primaryRecords).map String.mk)
           ((nsResolverSets nsR).map (fun p => (p.1, p.2.map String.mk)))) }]) ∧
    (∀ prim others : List DNSRecord,
       nsSetsDiffer (nsSetOf prim) (nsSetOf others) = true ↔
         ¬ (∀ x, x ∈ others.map (fun r => lowerChars r.data.data) ↔
                 x ∈ prim.map (fun r => lowerChars r.data.data))) := by
  refine ⟨?_, nsSetOf_differs_iff⟩
  have hlen : ¬ nsR.primaryRecords.length = 0 :=
    fun h => hprim (List.length_eq_zero.mp h)
  rw [analyze_filterType_ns]
  simp only [checkNSMismatch, hNS]
  rw [if_neg hlen, if_pos hdiv]

/-- C6 witness: primary NS set {ns1,ns2} against one resolver reporting
    {ns3} produces exactly the single `ns_mismatch` error issue. -/
theorem ns_mismatch_single_issue_witness :
    (lookupType d6 "NS" = some nsQR6) ∧ (nsQR6.primaryRecords ≠ []) ∧
    (nsHasMismatch nsQR6 = true) ∧
    (filterType (analyzeDNS d6 "example.com").issues "ns_mismatch" =
      [{ type := "ns_mismatch", severity := Severity.error,
         message := "NS records differ across DNS resolvers",
         details := some (Details.nsMismatch
           ((nsSetOf nsQR6.primaryRecords).map String.mk)
           ((nsResolverSets nsQR6).map (fun p => (p.1, p.2.map String.mk)))) }]) :=
  ⟨by decide, by decide, by decide,
   (ns_mismatch_single_issue d6 "example.com" nsQR6 (by decide) (by decide)
     (by decide)).1⟩

/-- C7: the email-setup rule — with neither MX nor TXT records the report
    holds exactly one `missing_email_setup` info issue and no SPF/DMARC
    issue; with MX present, a missing SPF yields one `missing_spf` warning
    and a missing DMARC one `missing_dmarc` info, and `missing_email_setup`
    never co-occurs with either. -/
theorem checkEmailSetup_cases (d : AllDNSResults) (domain : String) :
    (hasMX d = false → hasTXT d = false →
       filterType (analyzeDNS d domain).issues "missing_email_setup" =
         [{ type := "missing_email_setup", severity := Severity.info,
            message := "No MX or TXT records found - domain may not be configured for email" }] ∧
       filterType (analyzeDNS d domain).issues "missing_spf" = [] ∧
       filterType (analyzeDNS d domain).issues "missing_dmarc" = []) ∧
    (hasMX d = true → hasSPF d = false →
       filterType (analyzeDNS d domain).issues "missing_spf" =
         [{ type := "missing_spf", severity := Severity.warning,
            message := "MX records present but no SPF record found" }] ∧
       filterType (analyzeDNS d domain).issues "missing_email_setup" = []) ∧
    (hasMX d = true → hasDMARC d = false →
       filterType (analyzeDNS d domain).issues "missing_dmarc" =
         [{ type := "missing_dmarc", severity := Severity.info,
            message := "MX records present but no DMARC record found" }] ∧
       filterType (analyzeDNS d domain).issues "missing_email_setup" = []) := by
  refine ⟨?_, ?_, ?_⟩
  · intro h1 h2
    rw [analyze_filterType_email _ _ _ (Or.inl rfl),
        analyze_filterType_email _ _ _ (Or.inr (Or.inl rfl)),
        analyze_filterType_email _ _ _ (Or.inr (Or.inr rfl))]
    refine ⟨?_, ?_, ?_⟩ <;> simp [checkEmailSetup, filterType, h1, h2]
  · intro h1 h2
    rw [analyze_filterType_email _ _ _ (Or.inr (Or.inl rfl)),
        analyze_filterType_email _ _ _ (Or.inl rfl)]
    by_cases h3 : hasDMARC d <;>
      refine ⟨?_, ?_⟩ <;> simp [checkEmailSetup, filterType, h1, h2, h3]
  · intro h1 h3
    rw [analyze_filterType_email _ _ _ (Or.inr (Or.inr rfl)),
        analyze_filterType_email _ _ _ (Or.inl rfl)]
    by_cases h2 : hasSPF d <;>
      refine ⟨?_, ?_⟩ <;> simp [checkEmailSetup, filterType, h1, h2, h3]

/-- C7 witness: the empty result set has neither MX nor TXT records; the
    report holds exactly one `missing_email_setup` info issue and no
    `missing_spf` or `missing_dmarc` issue. -/
theorem checkEmailSetup_cases_witness :
    (hasMX ([] : AllDNSResults) = false) ∧ (hasTXT ([] : AllDNSResults) = false) ∧
    (filterType (analyzeDNS ([] : AllDNSResults) "example.com").issues "missing_email_setup" =
       [{ type := "missing_email_setup", severity := Severity.info,
          message := "No MX or TXT records found - domain may not be configured for email" }] ∧
     filterType (analyzeDNS ([] : AllDNSResults) "example.com").issues "missing_spf" = [] ∧
     filterType (analyzeDNS ([] : AllDNSResults) "example.com").issues "missing_dmarc" = []) :=
  ⟨rfl, rfl, (checkEmailSetup_cases ([] : AllDNSResults) "example.com").1 rfl rfl⟩

/-- C8: the SPF rule emits exactly one error issue per offending record:
    the `spf_syntax_error` slice of the report is the image — one issue
    each, carrying the raw record text — of the TXT records that carry the
    (case-insensitive) SPF tag yet fail `validateSPF`; concretely, the
    well-formed record passes and `"v=spf1 frobnicate"` produces exactly
    one error issue referencing its text. -/
theorem spf_format_one_issue_per_record (d : AllDNSResults) (domain : String) :
    (filterType (analyzeDNS d domain).issues "spf_syntax_error" =
      ((((lookupType d "TXT").map (fun r => r.primaryRecords)).getD []).filter
          (fun r => isPrefixB "v=spf1".data (lowerChars r.data.data) && !validateSPF r.data)).map
        (fun r =>
          { type := "spf_syntax_error", severity := Severity.error,
            message := "SPF record has syntax errors",
            details := some (Details.spfRecord r.data) })) ∧
    (validateSPF "v=spf1 include:_spf.example.com -all" = true) ∧
    (validateSPF "v=spf1 frobnicate" = false) ∧
    (filterType (analyzeDNS d8 "example.com").issues "spf_syntax_error" =
      [{ type := "spf_syntax_error", severity := Severity.error,
         message := "SPF record has syntax errors",
         details := some (Details.spfRecord "v=spf1 frobnicate") }]) := by
  refine ⟨?_, by decide, by decide, by decide⟩
  rw [analyze_filterType_spf]
  unfold checkSPFFormat
  rcases h : lookupType d "TXT" with _ | txtR
  · simp
  · show (if txtR.primaryRecords.length = 0 then [] else
        (txtR.primaryRecords.filter
            (fun r => isPrefixB "v=spf1".data (lowerChars r.data.data))).flatMap
          (fun record => if !validateSPF record.data then
              [({ type := "spf_syntax_error", severity := Severity.error,
                  message := "SPF record has syntax errors",
                  details := some (Details.spfRecord record.data) } : DiagnosticIssue)]
            else [])) =
      (txtR.primaryRecords.filter
          (fun r => isPrefixB "v=spf1".data (lowerChars r.data.data) && !validateSPF r.data)).map
        (fun r =>
          { type := "spf_syntax_error", severity := Severity.error,
            message := "SPF record has syntax errors",
            details := some (Details.spfRecord r.data) })
    split
    · rename_i hlen
      rw [List.length_eq_zero.mp hlen]
      simp
    · exact flatMap_if_singleton txtR.primaryRecords
        (fun r => isPrefixB "v=spf1".data (lowerChars r.data.data))
        (fun r => !validateSPF r.data)
        (fun r =>
          ({ type := "spf_syntax_error", severity := Severity.error,
             message := "SPF record has syntax errors",
             details := some (Details.spfRecord r.data) } : DiagnosticIssue))

/-- C9: a TXT record whose payload starts with an upper-case SPF version
    tag but otherwise entirely valid mechanisms is selected by the
    case-insensitive tag filter, rejected by the case-sensitive
    `validateSPF`, and therefore flagged by `analyzeDNS` with an
    `spf_syntax_error` issue. -/
theorem spf_uppercase_tag_flagged :
    (isPrefixB "v=spf1".data (lowerChars "V=spf1 include:_spf.example.com -all".data) = true) ∧
    (isPrefixB "v=spf1".data "V=spf1 include:_spf.example.com -all".data = false) ∧
    (validMechanismsTest "include:_spf.example.com".data = true ∧
     validMechanismsTest "-all".data = true) ∧
    (validateSPF "V=spf1 include:_spf.example.com -all" = false) ∧
    (filterType (analyzeDNS d9 "example.com").issues "spf_syntax_error" =
      [{ type := "spf_syntax_error", severity := Severity.error,
         message := "SPF record has syntax errors",
         details := some (Details.spfRecord "V=spf1 include:_spf.example.com -all") }]) := by
  refine ⟨by decide, by decide, ⟨by decide, by decide⟩, by decide, by decide⟩

/-- C10: the NS rule skips failure-marked propagation outcomes entirely —
    its output depends only on the primary records and the non-failed
    propagation entries — and with an empty (or absent) primary NS record
    list no `ns_mismatch` issue is ever emitted, whatever any propagation
    resolver reports. -/
theorem ns_mismatch_skips_failed_resolvers (d d2 : AllDNSResults) (domain : String) :
    (∀ nsR nsR2, lookupType d "NS" = some nsR → lookupType d2 "NS" = some nsR2 →
       nsR.primaryRecords = nsR2.primaryRecords →
       nsR.propagation.filter (fun p => !p.2.hasError) =
         nsR2.propagation.filter (fun p => !p.2.hasError) →
       checkNSMismatch d = checkNSMismatch d2) ∧
    (∀ nsR, lookupType d "NS" = some nsR → nsR.primaryRecords = [] →
       filterType (analyzeDNS d domain).issues "ns_mismatch" = []) ∧
    (lookupType d "NS" = none →
       filterType (analyzeDNS d domain).issues "ns_mismatch" = []) := by
  refine ⟨?_, ?_, ?_⟩
  · intro nsR nsR2 h1 h2 hprim hfilter
    have hsets : nsResolverSets nsR = nsResolverSets nsR2 := by
      unfold nsResolverSets
      rw [hfilter]
    have hmm : nsHasMismatch nsR = nsHasMismatch nsR2 := by
      unfold nsHasMismatch
      rw [hsets, hprim]
    simp only [checkNSMismatch, h1, h2, hprim, hsets, hmm]
  · intro nsR h1 hprim
    rw [analyze_filterType_ns]
    simp [checkNSMismatch, h1, hprim]
  · intro h1
    rw [analyze_filterType_ns]
    simp [checkNSMismatch, h1]

/-- C10 witness: a failure-marked resolver reporting a divergent NS set is
    ignored — the NS rule's output is the same as with that outcome
    removed (no issue in either case). -/
theorem ns_mismatch_skips_failed_resolvers_witness :
    (lookupType d10 "NS" = some nsQR10) ∧ (lookupType d10b "NS" = some nsQR10b) ∧
    (nsQR10.primaryRecords = nsQR10b.primaryRecords) ∧
    (nsQR10.propagation.filter (fun p => !p.2.hasError) =
      nsQR10b.propagation.filter (fun p => !p.2.hasError)) ∧
    (checkNSMismatch d10 = checkNSMismatch d10b) :=
  ⟨by decide, by decide, by decide, by decide,
   (ns_mismatch_skips_failed_resolvers d10 d10b "example.com").1 nsQR10 nsQR10b
     (by decide) (by decide) (by decide) (by decide)⟩

end DNSDoctor
